import Mathlib

set_option linter.unusedSectionVars false

/-!
Verification development for the SPADE generator of the gaugan repository
(src/gaugan/models/spade_generators/spade_generator.py).

The embedding models 4-dimensional tensors as a shape record together with a
total indexing function into an ordered field of scalars.  PyTorch primitives
used by the source (Conv2d, Upsample, interpolate, leaky_relu, spectral_norm)
are modelled below with their documented shape and value semantics; the
transcendental torch.tanh is passed to the forward pass as an explicit
function parameter and instantiated with Real.tanh over the reals.  The SPADE
normalization module is imported by the source from a sibling module whose
code is not part of the repository snapshot, so it is modelled from the
specification (section 4.1).
-/

/-- Tensor of layout [batch, channel, height, width]: a shape record plus a
total indexing function (reads outside the shape are unspecified values that
no operation depends on, except the zero-padded reads of convolution). -/
structure Tensor4 (α : Type) where
  b : ℕ
  c : ℕ
  h : ℕ
  w : ℕ
  data : ℕ → ℕ → ℕ → ℕ → α

variable {α : Type} [LinearOrderedField α]

/-- Shape of a tensor as the list [B, C, H, W]. -/
def Tensor4.shape (t : Tensor4 α) : List ℕ := [t.b, t.c, t.h, t.w]

/-- Elementwise map over a tensor; the shape is unchanged. -/
def Tensor4.map (f : α → α) (t : Tensor4 α) : Tensor4 α :=
  { t with data := fun b c i j => f (t.data b c i j) }

/-- Elementwise sum of two tensors (shape taken from the first operand, as in
broadcasting-free torch addition of equal-shaped tensors). -/
def Tensor4.add (x y : Tensor4 α) : Tensor4 α :=
  { x with data := fun b c i j => x.data b c i j + y.data b c i j }

/-- Zero-padded read: models reading a spatially padded tensor at signed
coordinates, as done by a padded convolution. -/
def Tensor4.getPad (t : Tensor4 α) (b c : ℕ) (i j : ℤ) : α :=
  if 0 ≤ i ∧ i < (t.h : ℤ) ∧ 0 ≤ j ∧ j < (t.w : ℤ) then t.data b c i.toNat j.toNat else 0

/-- Model of torch.nn.functional.leaky_relu applied elementwise with the given
negative slope. -/
def leaky_relu (slope : α) (t : Tensor4 α) : Tensor4 α :=
  t.map (fun v => if 0 ≤ v then v else slope * v)

/-- Model of torch.nn.Conv2d parameters: channel counts, square kernel size,
symmetric zero padding, optional bias, and the weight and bias values. -/
structure Conv2d (α : Type) where
  inC : ℕ
  outC : ℕ
  kernel : ℕ
  padding : ℕ
  hasBias : Bool
  weight : ℕ → ℕ → ℕ → ℕ → α
  biasv : ℕ → α

/-- Model of the forward pass of torch.nn.Conv2d with stride 1: cross
correlation of the zero padded input with the kernel, plus the bias.  The
output spatial size is H + 2 padding - kernel + 1. -/
def Conv2d.apply (conv : Conv2d α) (x : Tensor4 α) : Tensor4 α :=
  { b := x.b
    c := conv.outC
    h := x.h + 2 * conv.padding + 1 - conv.kernel
    w := x.w + 2 * conv.padding + 1 - conv.kernel
    data := fun b o i j =>
      (if conv.hasBias then conv.biasv o else 0) +
      ∑ ci ∈ Finset.range conv.inC, ∑ u ∈ Finset.range conv.kernel,
        ∑ v ∈ Finset.range conv.kernel,
          conv.weight o ci u v *
            x.getPad b ci ((i : ℤ) + (u : ℤ) - (conv.padding : ℤ))
              ((j : ℤ) + (v : ℤ) - (conv.padding : ℤ)) }

/-- Raw values from which a Conv2d is built (the external training procedure
owns them; construction only fixes the shapes). -/
structure ConvParams (α : Type) where
  weight : ℕ → ℕ → ℕ → ℕ → α
  biasv : ℕ → α

/-- Build a Conv2d of the given shape from raw parameter values. -/
def mkConv2d (inC outC kernel padding : ℕ) (hasBias : Bool) (cp : ConvParams α) : Conv2d α :=
  { inC := inC, outC := outC, kernel := kernel, padding := padding, hasBias := hasBias
    weight := cp.weight, biasv := cp.biasv }

/-- Model of torch.nn.Upsample with scale_factor 2 (nearest neighbour):
doubles both spatial dimensions. -/
def upsample2 (x : Tensor4 α) : Tensor4 α :=
  { x with h := 2 * x.h, w := 2 * x.w, data := fun b c i j => x.data b c (i / 2) (j / 2) }

/-- Model of torch.nn.functional.interpolate with an explicit target size
(nearest neighbour): resizes the spatial dimensions to (oh, ow). -/
def interpolate (oh ow : ℕ) (x : Tensor4 α) : Tensor4 α :=
  { x with h := oh, w := ow, data := fun b c i j => x.data b c (i * x.h / oh) (j * x.w / ow) }

/-- Decides whether pat occurs as a contiguous sublist of l, mirroring the
Python substring test. -/
def listContains : List Char → List Char → Bool
  | [], pat => pat.isEmpty
  | a :: rest, pat => pat.isPrefixOf (a :: rest) || listContains rest pat

/-- Model of the Python substring test pat in s. -/
def strContains (s pat : String) : Bool := listContains s.data pat.data

/-- Fuel-driven worker for strReplace: replaces every non-overlapping
occurrence of pat, scanning left to right.  The fuel is the length of the
scanned list, which suffices for a non-empty pattern. -/
def replaceFuel (pat rep : List Char) : ℕ → List Char → List Char
  | 0, l => l
  | _ + 1, [] => []
  | fuel + 1, a :: rest =>
    if pat.isPrefixOf (a :: rest) then
      rep ++ replaceFuel pat rep fuel ((a :: rest).drop pat.length)
    else a :: replaceFuel pat rep fuel rest

/-- Model of the Python str.replace: every occurrence of pat in s is replaced
by rep, scanning left to right. -/
def strReplace (s pat rep : String) : String :=
  String.mk (replaceFuel pat.data rep.data s.data.length s.data)

/-- Errors of the model: InvalidConfiguration corresponds to the ValueError
raised at construction time by the source, InvalidState to the ValueError
raised by torch.nn.utils.remove_spectral_norm when no spectral
reparameterization is present. -/
inductive GaugError where
  | invalidConfiguration : String → GaugError
  | invalidState : String → GaugError
deriving DecidableEq

/-- Configuration object consumed by the generator (the opt argument of the
source).  The aspect ratio is modelled as a rational number. -/
structure Config where
  ngf : ℕ
  norm_G : String
  semantic_nc : ℕ
  num_upsampling_layers : String
  crop_size : ℕ
  aspect_ratio : ℚ

/-- Model of the Python built-in round on an exact rational value: round half
to even. -/
def pyRound (q : ℚ) : ℤ :=
  let f : ℤ := Rat.floor q
  if q - f < 1 / 2 then f
  else if 1 / 2 < q - f then f + 1
  else if f % 2 = 0 then f else f + 1

/-- Mapping of the num_upsampling_layers mode string to the number of
upsampling stages, mirroring the if chain of compute_latent_vector_size;
an unrecognized value produces the InvalidConfiguration error raised by
the source. -/
def num_up_layers (s : String) : Except GaugError ℕ :=
  if s = "normal" then Except.ok 5
  else if s = "more" then Except.ok 6
  else if s = "most" then Except.ok 7
  else Except.error (GaugError.invalidConfiguration
    ("opt.num_upsampling_layers [" ++ s ++ "] not recognized"))

/-- Model of SPADEGenerator.compute_latent_vector_size: sw is the integer
floor division of crop_size by 2 to the number of stages, and sh is the Python
round of sw divided by the aspect ratio. -/
def compute_latent_vector_size (opt : Config) : Except GaugError (ℕ × ℤ) :=
  Except.map (fun n =>
    let sw := opt.crop_size / 2 ^ n
    (sw, pyRound ((sw : ℚ) / opt.aspect_ratio))) (num_up_layers opt.num_upsampling_layers)

/-- Modelled from the spec: the Conditional Normalizer (SPADE module imported
by the source from the sibling normalization module, whose code is not in the
repository snapshot).  The descriptor selects the base normalizer among a
small closed set; spec section 4.1. -/
inductive BaseNormKind where
  | instanceNorm : BaseNormKind
  | syncBatch : BaseNormKind
  | positionalNorm : BaseNormKind
deriving DecidableEq

/-- Modelled from the spec: parsing of the normalization-mode descriptor by
the Conditional Normalizer constructor; selects the base normalizer by
substring and fails with InvalidConfiguration if the descriptor matches
none (spec sections 4.1 and 7). -/
def parseBaseNorm (s : String) : Except GaugError BaseNormKind :=
  if strContains s "instance" then Except.ok BaseNormKind.instanceNorm
  else if strContains s "batch" then Except.ok BaseNormKind.syncBatch
  else if strContains s "position" then Except.ok BaseNormKind.positionalNorm
  else Except.error (GaugError.invalidConfiguration
    ("normalization layer [" ++ s ++ "] not recognized"))

/-- Mean of the values of one (batch, channel) plane over the spatial
positions inside the shape. -/
def spatialMean (x : Tensor4 α) (b c : ℕ) : α :=
  (∑ i ∈ Finset.range x.h, ∑ j ∈ Finset.range x.w, x.data b c i j) / ((x.h : α) * (x.w : α))

/-- Mean of the values of one channel over batch and spatial positions inside
the shape. -/
def batchMean (x : Tensor4 α) (c : ℕ) : α :=
  (∑ b ∈ Finset.range x.b, ∑ i ∈ Finset.range x.h, ∑ j ∈ Finset.range x.w, x.data b c i j) /
    ((x.b : α) * (x.h : α) * (x.w : α))

/-- Mean of the values of one spatial position over the channels inside the
shape. -/
def channelMean (x : Tensor4 α) (b i j : ℕ) : α :=
  (∑ c ∈ Finset.range x.c, x.data b c i j) / (x.c : α)

/-- Modelled from the spec: the parameter-free base normalization of the
Conditional Normalizer, producing a zero-mean normalized tensor with no
learned affine parameters of its own.  The statistics are centred over the
axes selected by the kind; the variance scaling of the spec (unit-variance
"ish") is beyond plain field operations and is immaterial to every claim,
so the model centres only.  The shape is unchanged. -/
def baseNormalize (k : BaseNormKind) (x : Tensor4 α) : Tensor4 α :=
  match k with
  | BaseNormKind.instanceNorm =>
    { x with data := fun b c i j => x.data b c i j - spatialMean x b c }
  | BaseNormKind.syncBatch =>
    { x with data := fun b c i j => x.data b c i j - batchMean x c }
  | BaseNormKind.positionalNorm =>
    { x with data := fun b c i j => x.data b c i j - channelMean x b i j }

/-- Bounded nonlinearity of the prediction trunk of the Conditional
Normalizer, modelled as a clamp to [-1, 1] (spec section 4.1 asks for a
bounded nonlinearity; no claim depends on its exact form). -/
def clampUnit (v : α) : α := max (-1) (min 1 v)

/-- Modelled from the spec: state of a Conditional Normalizer — the stored
descriptor string, the parsed base normalizer, the channel counts, and the
three convolutions of the parameter-prediction sub-network (one shared trunk
convolution then two parallel convolutions producing the scale and bias
maps). -/
structure SPADE (α : Type) where
  configStr : String
  baseKind : BaseNormKind
  normNc : ℕ
  labelNc : ℕ
  nhidden : ℕ
  mlp_shared : Conv2d α
  mlp_gamma : Conv2d α
  mlp_beta : Conv2d α

/-- Raw parameter values of the three convolutions of a Conditional
Normalizer. -/
structure SPADEParams (α : Type) where
  shared : ConvParams α
  gammaP : ConvParams α
  betaP : ConvParams α

/-- Modelled from the spec: the record built by a successful Conditional
Normalizer construction.  The prediction convolutions use kernel 3 with
padding 1, keeping every map at the spatial size of the resized semantic
input. -/
def SPADE.build (configStr : String) (normNc labelNc nhidden : ℕ) (k : BaseNormKind)
    (ps : SPADEParams α) : SPADE α :=
  { configStr := configStr, baseKind := k, normNc := normNc, labelNc := labelNc
    nhidden := nhidden
    mlp_shared := mkConv2d labelNc nhidden 3 1 true ps.shared
    mlp_gamma := mkConv2d nhidden normNc 3 1 true ps.gammaP
    mlp_beta := mkConv2d nhidden normNc 3 1 true ps.betaP }

/-- Modelled from the spec: Conditional Normalizer construction — parse the
descriptor, failing with InvalidConfiguration when it matches no base
normalizer, then build the record. -/
def SPADE.make (configStr : String) (normNc labelNc nhidden : ℕ) (ps : SPADEParams α) :
    Except GaugError (SPADE α) :=
  Except.map (fun k => SPADE.build configStr normNc labelNc nhidden k ps)
    (parseBaseNorm configStr)

/-- Modelled from the spec: forward pass of the Conditional Normalizer —
base-normalize X, resize the semantic map to the spatial size of X, predict
the scale and bias maps from it, and return normalized(X) * (1 + gamma) +
beta.  The output shape equals the shape of X. -/
def SPADE.forward (sp : SPADE α) (x seg : Tensor4 α) : Tensor4 α :=
  let normalized := baseNormalize sp.baseKind x
  let segR := interpolate x.h x.w seg
  let actv := (sp.mlp_shared.apply segR).map clampUnit
  let gamma := sp.mlp_gamma.apply actv
  let beta := sp.mlp_beta.apply actv
  { x with data := fun b c i j =>
      normalized.data b c i j * (1 + gamma.data b c i j) + beta.data b c i j }

/-- State of one convolution that may carry the spectral-norm weight
reparameterization of torch.nn.utils.spectral_norm: either plain weights, or
a wrapped convolution together with the current scaling factor 1 / sigma
estimated by the power-iteration cache of the wrapper. -/
inductive ConvLayer (α : Type) where
  | plain : Conv2d α → ConvLayer α
  | spectralNormalized : Conv2d α → α → ConvLayer α

/-- Realized convolution of a possibly wrapped layer: the raw weights scaled
by the current estimate for a wrapped layer, the stored weights otherwise. -/
def ConvLayer.realized : ConvLayer α → Conv2d α
  | ConvLayer.plain conv => conv
  | ConvLayer.spectralNormalized conv s =>
    { conv with weight := fun o ci u v => s * conv.weight o ci u v }

/-- Forward pass of a possibly wrapped convolution: apply the realized
convolution. -/
def ConvLayer.apply (cl : ConvLayer α) (x : Tensor4 α) : Tensor4 α :=
  cl.realized.apply x

/-- Whether the spectral-norm reparameterization is currently applied. -/
def ConvLayer.isSpectral : ConvLayer α → Bool
  | ConvLayer.plain _ => false
  | ConvLayer.spectralNormalized _ _ => true

/-- Model of torch.nn.utils.remove_spectral_norm on one convolution: folds
the realized weights into plain storage; raises (ValueError, modelled as
InvalidState) when the reparameterization is not present. -/
def ConvLayer.remove_spectral_norm : ConvLayer α → Except GaugError (ConvLayer α)
  | ConvLayer.plain _ => Except.error (GaugError.invalidState "spectral_norm not found")
  | ConvLayer.spectralNormalized conv s =>
    Except.ok (ConvLayer.plain ((ConvLayer.spectralNormalized conv s).realized))

/-- State of SPADEResnetBlock: channel counts, the derived learned_shortcut
flag, the owned convolutions (wrapped when the mode string carries the
spectral marker), and the owned Conditional Normalizers (the shortcut pair
present only when the shortcut is learned). -/
structure SPADEResnetBlock (α : Type) where
  fin : ℕ
  fout : ℕ
  learned_shortcut : Bool
  conv_0 : ConvLayer α
  conv_1 : ConvLayer α
  conv_s : Option (ConvLayer α)
  norm_0 : SPADE α
  norm_1 : SPADE α
  norm_s : Option (SPADE α)

/-- Raw parameter values of one SPADEResnetBlock: the three convolutions,
their spectral scaling estimates when wrapped, and the three Conditional
Normalizers. -/
structure BlockParams (α : Type) where
  c0 : ConvParams α
  c1 : ConvParams α
  cs : ConvParams α
  s0 : α
  s1 : α
  ss : α
  n0 : SPADEParams α
  n1 : SPADEParams α
  ns : SPADEParams α

/-- Record built by SPADEResnetBlock.__init__ once the (shared) descriptor of
its Conditional Normalizers has parsed: fmiddle = min fin fout,
learned_shortcut = (fin != fout), conv_0 : fin -> fmiddle and conv_1 :
fmiddle -> fout with kernel 3 padding 1, the bias-free kernel-1 shortcut
convolution only when the shortcut is learned, spectral wrapping of all owned
convolutions exactly when the mode string carries the spectral marker, and
the normalizers built on the mode string with the marker removed. -/
def SPADEResnetBlock.build (fin fout : ℕ) (opt : Config) (ps : BlockParams α)
    (k : BaseNormKind) : SPADEResnetBlock α :=
  let fmiddle := min fin fout
  let spectral := strContains opt.norm_G "spectral"
  let wrap : Conv2d α → α → ConvLayer α := fun conv s =>
    if spectral then ConvLayer.spectralNormalized conv s else ConvLayer.plain conv
  let spade_config_str := strReplace opt.norm_G "spectral" ""
  { fin := fin, fout := fout
    learned_shortcut := fin != fout
    conv_0 := wrap (mkConv2d fin fmiddle 3 1 true ps.c0) ps.s0
    conv_1 := wrap (mkConv2d fmiddle fout 3 1 true ps.c1) ps.s1
    conv_s := if fin != fout then some (wrap (mkConv2d fin fout 1 0 false ps.cs) ps.ss) else none
    norm_0 := SPADE.build spade_config_str fin opt.semantic_nc (opt.ngf * 2) k ps.n0
    norm_1 := SPADE.build spade_config_str fmiddle opt.semantic_nc (opt.ngf * 2) k ps.n1
    norm_s := if fin != fout then
        some (SPADE.build spade_config_str fin opt.semantic_nc (opt.ngf * 2) k ps.ns)
      else none }

/-- Model of SPADEResnetBlock.__init__.  The two or three SPADE constructions
of the source all receive the same stripped descriptor string, so the
construction fails exactly when that shared descriptor fails to parse; the
parse is factored out here and the rest of the construction is the pure
record above. -/
def SPADEResnetBlock.make (fin fout : ℕ) (opt : Config) (ps : BlockParams α) :
    Except GaugError (SPADEResnetBlock α) :=
  Except.map (SPADEResnetBlock.build fin fout opt ps)
    (parseBaseNorm (strReplace opt.norm_G "spectral" ""))

/-- Model of SPADEResnetBlock.actvn: leaky relu with negative slope 2e-1. -/
def SPADEResnetBlock.actvn (x : Tensor4 α) : Tensor4 α := leaky_relu (2 / 10) x

/-- Model of SPADEResnetBlock.shortcut: the conditioned-normalization plus
kernel-1 convolution path when the shortcut is learned, the identity
otherwise.  (A learned-shortcut record with a missing field, impossible for
constructed blocks, falls back to the identity.) -/
def SPADEResnetBlock.shortcut (blk : SPADEResnetBlock α) (x seg : Tensor4 α) : Tensor4 α :=
  if blk.learned_shortcut then
    match blk.conv_s, blk.norm_s with
    | some cl, some ns => cl.apply (ns.forward x seg)
    | _, _ => x
  else x

/-- Model of SPADEResnetBlock.forward: residual sum of the shortcut path and
the main path conv_1(actvn(norm_1(conv_0(actvn(norm_0(x, seg))), seg))). -/
def SPADEResnetBlock.forward (blk : SPADEResnetBlock α) (x seg : Tensor4 α) : Tensor4 α :=
  let x_s := blk.shortcut x seg
  let dx := blk.conv_0.apply (SPADEResnetBlock.actvn (blk.norm_0.forward x seg))
  let dx := blk.conv_1.apply (SPADEResnetBlock.actvn (blk.norm_1.forward dx seg))
  Tensor4.add x_s dx

/-- Model of SPADEResnetBlock.remove_spectral_norm: unwraps conv_0, conv_1
and, when the shortcut is learned, conv_s; each unwrap raises when the
reparameterization is not present. -/
def SPADEResnetBlock.remove_spectral_norm (blk : SPADEResnetBlock α) :
    Except GaugError (SPADEResnetBlock α) := do
  let c0 ← blk.conv_0.remove_spectral_norm
  let c1 ← blk.conv_1.remove_spectral_norm
  let cs ← if blk.learned_shortcut then
      match blk.conv_s with
      | some cl => Except.map some cl.remove_spectral_norm
      | none => Except.ok none
    else Except.ok blk.conv_s
  Except.ok { blk with conv_0 := c0, conv_1 := c1, conv_s := cs }

/-- State of SPADEGenerator: the configuration, the derived base spatial size
(sw, sh), the entry projection convolution, the owned residual blocks (the
fifth upsampling block only in the most mode), and the final image
convolution. -/
structure SPADEGenerator (α : Type) where
  opt : Config
  sw : ℕ
  sh : ℤ
  fc : Conv2d α
  head_0 : SPADEResnetBlock α
  G_middle_0 : SPADEResnetBlock α
  G_middle_1 : SPADEResnetBlock α
  up_0 : SPADEResnetBlock α
  up_1 : SPADEResnetBlock α
  up_2 : SPADEResnetBlock α
  up_3 : SPADEResnetBlock α
  up_4 : Option (SPADEResnetBlock α)
  conv_img : Conv2d α

/-- Raw parameter values of one SPADEGenerator: the entry and final
convolutions and the residual blocks in construction order. -/
structure GenParams (α : Type) where
  fcP : ConvParams α
  imgP : ConvParams α
  head0 : BlockParams α
  gm0 : BlockParams α
  gm1 : BlockParams α
  u0 : BlockParams α
  u1 : BlockParams α
  u2 : BlockParams α
  u3 : BlockParams α
  u4 : BlockParams α

/-- Model of SPADEGenerator.__init__: derive (sw, sh) first (failing with
InvalidConfiguration on an unrecognized num_upsampling_layers before any
layer is created), then create the entry convolution, the residual blocks in
source order, the fifth upsampling block and the halved final channel count
only in the most mode, and the final image convolution. -/
def SPADEGenerator.make (opt : Config) (ps : GenParams α) :
    Except GaugError (SPADEGenerator α) := do
  let swsh ← compute_latent_vector_size opt
  let nf := opt.ngf
  let fc := mkConv2d opt.semantic_nc (16 * nf) 3 1 true ps.fcP
  let head_0 ← SPADEResnetBlock.make (16 * nf) (16 * nf) opt ps.head0
  let gm0 ← SPADEResnetBlock.make (16 * nf) (16 * nf) opt ps.gm0
  let gm1 ← SPADEResnetBlock.make (16 * nf) (16 * nf) opt ps.gm1
  let u0 ← SPADEResnetBlock.make (16 * nf) (8 * nf) opt ps.u0
  let u1 ← SPADEResnetBlock.make (8 * nf) (4 * nf) opt ps.u1
  let u2 ← SPADEResnetBlock.make (4 * nf) (2 * nf) opt ps.u2
  let u3 ← SPADEResnetBlock.make (2 * nf) (1 * nf) opt ps.u3
  let up4 ← if opt.num_upsampling_layers = "most" then
      Except.map some (SPADEResnetBlock.make (1 * nf) (nf / 2) opt ps.u4)
    else Except.ok none
  let final_nc := if opt.num_upsampling_layers = "most" then nf / 2 else nf
  let conv_img := mkConv2d final_nc 3 3 1 true ps.imgP
  Except.ok { opt := opt, sw := swsh.1, sh := swsh.2, fc := fc, head_0 := head_0
              G_middle_0 := gm0, G_middle_1 := gm1, up_0 := u0, up_1 := u1
              up_2 := u2, up_3 := u3, up_4 := up4, conv_img := conv_img }

/-- Final image stage of the forward pass: leaky relu with slope 2e-1, the
final image convolution, then the bounded nonlinearity (torch.tanh, passed as
the function parameter f). -/
def SPADEGenerator.img_out (g : SPADEGenerator α) (f : α → α) (x : Tensor4 α) : Tensor4 α :=
  Tensor4.map f (g.conv_img.apply (leaky_relu (2 / 10) x))

/-- Head of SPADEGenerator.forward, through middle block 0: downsample the
semantic map to (sh, sw), project with the entry convolution, apply the
fixed-resolution block, upsample, apply middle block 0. -/
def SPADEGenerator.fwHead (g : SPADEGenerator α) (input : Tensor4 α) : Tensor4 α :=
  let x := interpolate g.sh.toNat g.sw input
  let x := g.fc.apply x
  let x := g.head_0.forward x input
  let x := upsample2 x
  g.G_middle_0.forward x input

/-- Closing stage of SPADEGenerator.forward, after up_3: in the most mode one
more upsample followed by the fifth block (a constructed generator in the
most mode always owns it; the impossible missing-field case falls back to the
bare upsample), then the final image stage. -/
def SPADEGenerator.fwTail (g : SPADEGenerator α) (f : α → α) (x seg : Tensor4 α) : Tensor4 α :=
  let x := if g.opt.num_upsampling_layers = "most" then
      match g.up_4 with
      | some blk => blk.forward (upsample2 x) seg
      | none => upsample2 x
    else x
  g.img_out f x

/-- Trunk of SPADEGenerator.forward from middle block 1 on: middle block 1,
the four upsample-plus-block stages, then the closing stage. -/
def SPADEGenerator.fwTrunk (g : SPADEGenerator α) (f : α → α) (x seg : Tensor4 α) :
    Tensor4 α :=
  let x := g.G_middle_1.forward x seg
  let x := g.up_0.forward (upsample2 x) seg
  let x := g.up_1.forward (upsample2 x) seg
  let x := g.up_2.forward (upsample2 x) seg
  let x := g.up_3.forward (upsample2 x) seg
  g.fwTail f x seg

/-- Model of SPADEGenerator.forward (with torch.tanh as the parameter f): the
head through middle block 0, the extra bare upsample exactly in the more and
most modes, then the trunk from middle block 1 on.  The stages here compose
in the exact statement order of the source. -/
def SPADEGenerator.forward (g : SPADEGenerator α) (f : α → α) (input : Tensor4 α) :
    Tensor4 α :=
  let x := g.fwHead input
  let x := if g.opt.num_upsampling_layers = "more" ∨ g.opt.num_upsampling_layers = "most" then
      upsample2 x
    else x
  g.fwTrunk f x input

/-- Model of SPADEGenerator.remove_spectral_norm: cascades to every owned
residual block in construction order, and to the fifth block only in the most
mode. -/
def SPADEGenerator.remove_spectral_norm (g : SPADEGenerator α) :
    Except GaugError (SPADEGenerator α) := do
  let h0 ← g.head_0.remove_spectral_norm
  let gm0 ← g.G_middle_0.remove_spectral_norm
  let gm1 ← g.G_middle_1.remove_spectral_norm
  let u0 ← g.up_0.remove_spectral_norm
  let u1 ← g.up_1.remove_spectral_norm
  let u2 ← g.up_2.remove_spectral_norm
  let u3 ← g.up_3.remove_spectral_norm
  let u4 ← if g.opt.num_upsampling_layers = "most" then
      match g.up_4 with
      | some blk => Except.map some blk.remove_spectral_norm
      | none => Except.ok none
    else Except.ok g.up_4
  Except.ok { g with head_0 := h0, G_middle_0 := gm0, G_middle_1 := gm1
                     up_0 := u0, up_1 := u1, up_2 := u2, up_3 := u3, up_4 := u4 }

/-! Small reduction lemmas for the Except monad and the shape projections of
the tensor operations; these drive the inversion of the monadic
constructors and the shape computations below. -/

@[simp] theorem exOk_bind {ε β γ : Type} (a : β) (k : β → Except ε γ) :
    (Except.ok a >>= k) = k a := rfl

@[simp] theorem exError_bind {ε β γ : Type} (e : ε) (k : β → Except ε γ) :
    ((Except.error e : Except ε β) >>= k) = Except.error e := rfl

@[simp] theorem exMap_ok {ε β γ : Type} (f : β → γ) (a : β) :
    Except.map f (Except.ok a : Except ε β) = Except.ok (f a) := rfl

@[simp] theorem exMap_error {ε β γ : Type} (f : β → γ) (e : ε) :
    Except.map f (Except.error e : Except ε β) = Except.error e := rfl

@[simp] theorem tensorMap_b (f : α → α) (t : Tensor4 α) : (t.map f).b = t.b := rfl
@[simp] theorem tensorMap_c (f : α → α) (t : Tensor4 α) : (t.map f).c = t.c := rfl
@[simp] theorem tensorMap_h (f : α → α) (t : Tensor4 α) : (t.map f).h = t.h := rfl
@[simp] theorem tensorMap_w (f : α → α) (t : Tensor4 α) : (t.map f).w = t.w := rfl

@[simp] theorem tensorAdd_b (x y : Tensor4 α) : (x.add y).b = x.b := rfl
@[simp] theorem tensorAdd_c (x y : Tensor4 α) : (x.add y).c = x.c := rfl
@[simp] theorem tensorAdd_h (x y : Tensor4 α) : (x.add y).h = x.h := rfl
@[simp] theorem tensorAdd_w (x y : Tensor4 α) : (x.add y).w = x.w := rfl

@[simp] theorem leaky_b (s : α) (t : Tensor4 α) : (leaky_relu s t).b = t.b := rfl
@[simp] theorem leaky_c (s : α) (t : Tensor4 α) : (leaky_relu s t).c = t.c := rfl
@[simp] theorem leaky_h (s : α) (t : Tensor4 α) : (leaky_relu s t).h = t.h := rfl
@[simp] theorem leaky_w (s : α) (t : Tensor4 α) : (leaky_relu s t).w = t.w := rfl

@[simp] theorem upsample2_b (x : Tensor4 α) : (upsample2 x).b = x.b := rfl
@[simp] theorem upsample2_c (x : Tensor4 α) : (upsample2 x).c = x.c := rfl
@[simp] theorem upsample2_h (x : Tensor4 α) : (upsample2 x).h = 2 * x.h := rfl
@[simp] theorem upsample2_w (x : Tensor4 α) : (upsample2 x).w = 2 * x.w := rfl

@[simp] theorem interpolate_b (oh ow : ℕ) (x : Tensor4 α) : (interpolate oh ow x).b = x.b := rfl
@[simp] theorem interpolate_c (oh ow : ℕ) (x : Tensor4 α) : (interpolate oh ow x).c = x.c := rfl
@[simp] theorem interpolate_h (oh ow : ℕ) (x : Tensor4 α) : (interpolate oh ow x).h = oh := rfl
@[simp] theorem interpolate_w (oh ow : ℕ) (x : Tensor4 α) : (interpolate oh ow x).w = ow := rfl

@[simp] theorem convApply_b (conv : Conv2d α) (x : Tensor4 α) : (conv.apply x).b = x.b := rfl
@[simp] theorem convApply_c (conv : Conv2d α) (x : Tensor4 α) : (conv.apply x).c = conv.outC := rfl
@[simp] theorem convApply_h (conv : Conv2d α) (x : Tensor4 α) :
    (conv.apply x).h = x.h + 2 * conv.padding + 1 - conv.kernel := rfl
@[simp] theorem convApply_w (conv : Conv2d α) (x : Tensor4 α) :
    (conv.apply x).w = x.w + 2 * conv.padding + 1 - conv.kernel := rfl

@[simp] theorem mkConv2d_inC (i o k p : ℕ) (hb : Bool) (cp : ConvParams α) :
    (mkConv2d i o k p hb cp).inC = i := rfl
@[simp] theorem mkConv2d_outC (i o k p : ℕ) (hb : Bool) (cp : ConvParams α) :
    (mkConv2d i o k p hb cp).outC = o := rfl
@[simp] theorem mkConv2d_kernel (i o k p : ℕ) (hb : Bool) (cp : ConvParams α) :
    (mkConv2d i o k p hb cp).kernel = k := rfl
@[simp] theorem mkConv2d_padding (i o k p : ℕ) (hb : Bool) (cp : ConvParams α) :
    (mkConv2d i o k p hb cp).padding = p := rfl
@[simp] theorem mkConv2d_hasBias (i o k p : ℕ) (hb : Bool) (cp : ConvParams α) :
    (mkConv2d i o k p hb cp).hasBias = hb := rfl

@[simp] theorem clApply_def (cl : ConvLayer α) (x : Tensor4 α) :
    cl.apply x = cl.realized.apply x := rfl

@[simp] theorem realized_plain (conv : Conv2d α) : (ConvLayer.plain conv).realized = conv := rfl

@[simp] theorem realized_spectral (conv : Conv2d α) (s : α) :
    (ConvLayer.spectralNormalized conv s).realized =
      { conv with weight := fun o ci u v => s * conv.weight o ci u v } := rfl

/-- Realization of a conditionally wrapped convolution: the shape fields are
those of the underlying convolution in both branches, only the weights
differ. -/
theorem realized_wrap (cond : Prop) [Decidable cond] (conv : Conv2d α) (s : α) :
    (if cond then ConvLayer.spectralNormalized conv s else ConvLayer.plain conv).realized =
      { conv with weight :=
          if cond then (fun o ci u v => s * conv.weight o ci u v) else conv.weight } := by
  split <;> simp

@[simp] theorem spadeForward_b (sp : SPADE α) (x seg : Tensor4 α) :
    (sp.forward x seg).b = x.b := rfl
@[simp] theorem spadeForward_c (sp : SPADE α) (x seg : Tensor4 α) :
    (sp.forward x seg).c = x.c := rfl
@[simp] theorem spadeForward_h (sp : SPADE α) (x seg : Tensor4 α) :
    (sp.forward x seg).h = x.h := rfl
@[simp] theorem spadeForward_w (sp : SPADE α) (x seg : Tensor4 α) :
    (sp.forward x seg).w = x.w := rfl

@[simp] theorem spadeBuild_configStr (s : String) (nc lc nh : ℕ) (k : BaseNormKind)
    (ps : SPADEParams α) : (SPADE.build s nc lc nh k ps).configStr = s := rfl

@[simp] theorem blockBuild_fin (fin fout : ℕ) (opt : Config) (ps : BlockParams α)
    (k : BaseNormKind) : (SPADEResnetBlock.build fin fout opt ps k).fin = fin := rfl

@[simp] theorem blockBuild_fout (fin fout : ℕ) (opt : Config) (ps : BlockParams α)
    (k : BaseNormKind) : (SPADEResnetBlock.build fin fout opt ps k).fout = fout := rfl

@[simp] theorem blockBuild_learned (fin fout : ℕ) (opt : Config) (ps : BlockParams α)
    (k : BaseNormKind) :
    (SPADEResnetBlock.build fin fout opt ps k).learned_shortcut = (fin != fout) := rfl

@[simp] theorem blockBuild_conv0 (fin fout : ℕ) (opt : Config) (ps : BlockParams α)
    (k : BaseNormKind) :
    (SPADEResnetBlock.build fin fout opt ps k).conv_0 =
      (if strContains opt.norm_G "spectral" then
        ConvLayer.spectralNormalized (mkConv2d fin (min fin fout) 3 1 true ps.c0) ps.s0
      else ConvLayer.plain (mkConv2d fin (min fin fout) 3 1 true ps.c0)) := rfl

@[simp] theorem blockBuild_conv1 (fin fout : ℕ) (opt : Config) (ps : BlockParams α)
    (k : BaseNormKind) :
    (SPADEResnetBlock.build fin fout opt ps k).conv_1 =
      (if strContains opt.norm_G "spectral" then
        ConvLayer.spectralNormalized (mkConv2d (min fin fout) fout 3 1 true ps.c1) ps.s1
      else ConvLayer.plain (mkConv2d (min fin fout) fout 3 1 true ps.c1)) := rfl

@[simp] theorem blockBuild_convs (fin fout : ℕ) (opt : Config) (ps : BlockParams α)
    (k : BaseNormKind) :
    (SPADEResnetBlock.build fin fout opt ps k).conv_s =
      (if fin != fout then
        some (if strContains opt.norm_G "spectral" then
            ConvLayer.spectralNormalized (mkConv2d fin fout 1 0 false ps.cs) ps.ss
          else ConvLayer.plain (mkConv2d fin fout 1 0 false ps.cs))
      else none) := rfl

@[simp] theorem blockBuild_norm0 (fin fout : ℕ) (opt : Config) (ps : BlockParams α)
    (k : BaseNormKind) :
    (SPADEResnetBlock.build fin fout opt ps k).norm_0 =
      SPADE.build (strReplace opt.norm_G "spectral" "") fin opt.semantic_nc (opt.ngf * 2)
        k ps.n0 := rfl

@[simp] theorem blockBuild_norm1 (fin fout : ℕ) (opt : Config) (ps : BlockParams α)
    (k : BaseNormKind) :
    (SPADEResnetBlock.build fin fout opt ps k).norm_1 =
      SPADE.build (strReplace opt.norm_G "spectral" "") (min fin fout) opt.semantic_nc
        (opt.ngf * 2) k ps.n1 := rfl

@[simp] theorem blockBuild_norms (fin fout : ℕ) (opt : Config) (ps : BlockParams α)
    (k : BaseNormKind) :
    (SPADEResnetBlock.build fin fout opt ps k).norm_s =
      (if fin != fout then
        some (SPADE.build (strReplace opt.norm_G "spectral" "") fin opt.semantic_nc
          (opt.ngf * 2) k ps.ns)
      else none) := rfl

/-- Inversion of the block constructor: success yields exactly the built
record, and the shared stripped descriptor parsed. -/
theorem blockMake_inv {fin fout : ℕ} {opt : Config} {ps : BlockParams α}
    {blk : SPADEResnetBlock α}
    (hb : SPADEResnetBlock.make fin fout opt ps = Except.ok blk) :
    ∃ k, parseBaseNorm (strReplace opt.norm_G "spectral" "") = Except.ok k ∧
      blk = SPADEResnetBlock.build fin fout opt ps k := by
  unfold SPADEResnetBlock.make at hb
  cases hp : parseBaseNorm (strReplace opt.norm_G "spectral" "") with
  | error e => rw [hp] at hb; simp at hb
  | ok k => rw [hp] at hb; simp at hb; exact ⟨k, rfl, hb.symm⟩

/-- Spatial height preservation of the forward pass of a built block. -/
@[simp] theorem blockBuildForward_h (fin fout : ℕ) (opt : Config) (ps : BlockParams α)
    (k : BaseNormKind) (x seg : Tensor4 α) :
    ((SPADEResnetBlock.build fin fout opt ps k).forward x seg).h = x.h := by
  unfold SPADEResnetBlock.forward SPADEResnetBlock.shortcut
  by_cases hc : (fin != fout) = true <;>
    simp [hc, SPADEResnetBlock.actvn, realized_wrap]

/-- Spatial width preservation of the forward pass of a built block. -/
@[simp] theorem blockBuildForward_w (fin fout : ℕ) (opt : Config) (ps : BlockParams α)
    (k : BaseNormKind) (x seg : Tensor4 α) :
    ((SPADEResnetBlock.build fin fout opt ps k).forward x seg).w = x.w := by
  unfold SPADEResnetBlock.forward SPADEResnetBlock.shortcut
  by_cases hc : (fin != fout) = true <;>
    simp [hc, SPADEResnetBlock.actvn, realized_wrap]

/-- Batch preservation of the forward pass of a built block. -/
@[simp] theorem blockBuildForward_b (fin fout : ℕ) (opt : Config) (ps : BlockParams α)
    (k : BaseNormKind) (x seg : Tensor4 α) :
    ((SPADEResnetBlock.build fin fout opt ps k).forward x seg).b = x.b := by
  unfold SPADEResnetBlock.forward SPADEResnetBlock.shortcut
  by_cases hc : (fin != fout) = true <;>
    simp [hc, SPADEResnetBlock.actvn, realized_wrap]

/-- Channel count of the forward pass of a built block: fout when the
shortcut is learned, the input channel count otherwise (the two agree
whenever the input matches fin). -/
@[simp] theorem blockBuildForward_c (fin fout : ℕ) (opt : Config) (ps : BlockParams α)
    (k : BaseNormKind) (x seg : Tensor4 α) :
    ((SPADEResnetBlock.build fin fout opt ps k).forward x seg).c =
      (if fin != fout then fout else x.c) := by
  unfold SPADEResnetBlock.forward SPADEResnetBlock.shortcut
  by_cases hc : (fin != fout) = true <;>
    simp [hc, SPADEResnetBlock.actvn, realized_wrap]

/-- Record built by a successful SPADEGenerator construction, given the
derived base size and the parsed base normalizer of the shared descriptor. -/
def SPADEGenerator.buildG (opt : Config) (ps : GenParams α) (swsh : ℕ × ℤ)
    (k : BaseNormKind) : SPADEGenerator α :=
  let nf := opt.ngf
  { opt := opt, sw := swsh.1, sh := swsh.2
    fc := mkConv2d opt.semantic_nc (16 * nf) 3 1 true ps.fcP
    head_0 := SPADEResnetBlock.build (16 * nf) (16 * nf) opt ps.head0 k
    G_middle_0 := SPADEResnetBlock.build (16 * nf) (16 * nf) opt ps.gm0 k
    G_middle_1 := SPADEResnetBlock.build (16 * nf) (16 * nf) opt ps.gm1 k
    up_0 := SPADEResnetBlock.build (16 * nf) (8 * nf) opt ps.u0 k
    up_1 := SPADEResnetBlock.build (8 * nf) (4 * nf) opt ps.u1 k
    up_2 := SPADEResnetBlock.build (4 * nf) (2 * nf) opt ps.u2 k
    up_3 := SPADEResnetBlock.build (2 * nf) (1 * nf) opt ps.u3 k
    up_4 := if opt.num_upsampling_layers = "most" then
        some (SPADEResnetBlock.build (1 * nf) (nf / 2) opt ps.u4 k)
      else none
    conv_img := mkConv2d (if opt.num_upsampling_layers = "most" then nf / 2 else nf)
      3 3 1 true ps.imgP }

/-- Inversion of the generator constructor: success yields exactly the built
record, with the derived base size and the parsed shared descriptor. -/
theorem generatorMake_inv {opt : Config} {ps : GenParams α} {g : SPADEGenerator α}
    (hg : SPADEGenerator.make opt ps = Except.ok g) :
    ∃ swsh k, compute_latent_vector_size opt = Except.ok swsh ∧
      parseBaseNorm (strReplace opt.norm_G "spectral" "") = Except.ok k ∧
      g = SPADEGenerator.buildG opt ps swsh k := by
  unfold SPADEGenerator.make at hg
  cases hcl : compute_latent_vector_size opt with
  | error e => rw [hcl] at hg; simp at hg
  | ok swsh =>
    rw [hcl] at hg
    unfold SPADEResnetBlock.make at hg
    cases hp : parseBaseNorm (strReplace opt.norm_G "spectral" "") with
    | error e => rw [hp] at hg; simp at hg
    | ok k =>
      rw [hp] at hg
      by_cases hm : opt.num_upsampling_layers = "most"
      · simp only [hm, if_true, exMap_ok, exOk_bind, Except.ok.injEq] at hg
        refine ⟨swsh, k, rfl, rfl, ?_⟩
        simp only [SPADEGenerator.buildG, hm, if_true]
        exact hg.symm
      · simp only [hm, if_false, exMap_ok, exOk_bind, Except.ok.injEq] at hg
        refine ⟨swsh, k, rfl, rfl, ?_⟩
        simp only [SPADEGenerator.buildG, hm, if_false]
        exact hg.symm

@[simp] theorem tensorMap_data (f : α → α) (t : Tensor4 α) (b c i j : ℕ) :
    (t.map f).data b c i j = f (t.data b c i j) := rfl

/-- Range bound of the real hyperbolic tangent, upper half. -/
theorem tanhLeOne (x : ℝ) : Real.tanh x ≤ 1 := by
  rw [Real.tanh_eq_sinh_div_cosh]
  exact ((div_lt_one (Real.cosh_pos x)).mpr (Real.sinh_lt_cosh x)).le

/-- Range bound of the real hyperbolic tangent, lower half. -/
theorem negOneLeTanh (x : ℝ) : -1 ≤ Real.tanh x := by
  have h := tanhLeOne (-x)
  rw [Real.tanh_neg] at h
  linarith

/-- C1: for every valid configuration and every input, Generator.forward
returns a tensor of shape [B, 3, sh * 2 ^ stages, sw * 2 ^ stages] (sw, sh,
stages the values derived at construction), every output value lies in
[-1, 1], and the final bounded nonlinearity is tanh applied right after the
final image convolution. -/
theorem c1_generator_forward_shape_and_range (opt : Config) (ps : GenParams ℝ)
    (g : SPADEGenerator ℝ) (n : ℕ)
    (hn : num_up_layers opt.num_upsampling_layers = Except.ok n)
    (hg : SPADEGenerator.make opt ps = Except.ok g) (x : Tensor4 ℝ) :
    (g.forward Real.tanh x).shape = [x.b, 3, g.sh.toNat * 2 ^ n, g.sw * 2 ^ n] ∧
    (∀ b c i j, -1 ≤ (g.forward Real.tanh x).data b c i j ∧
      (g.forward Real.tanh x).data b c i j ≤ 1) ∧
    (∃ y : Tensor4 ℝ, g.forward Real.tanh x =
      Tensor4.map Real.tanh (g.conv_img.apply (leaky_relu (2 / 10) y))) := by
  obtain ⟨swsh, k, hcl, hp, rfl⟩ := generatorMake_inv hg
  have hEq : ∃ y : Tensor4 ℝ, (SPADEGenerator.buildG opt ps swsh k).forward Real.tanh x =
      Tensor4.map Real.tanh
        ((SPADEGenerator.buildG opt ps swsh k).conv_img.apply (leaky_relu (2 / 10) y)) :=
    ⟨_, rfl⟩
  refine ⟨?_, ?_, hEq⟩
  · by_cases h1 : opt.num_upsampling_layers = "normal"
    · have hn5 : n = 5 := by
        simp [num_up_layers, h1] at hn
        omega
      subst hn5
      simp [SPADEGenerator.forward, SPADEGenerator.fwHead, SPADEGenerator.fwTrunk,
        SPADEGenerator.fwTail, SPADEGenerator.img_out, SPADEGenerator.buildG,
        Tensor4.shape, h1]
      omega
    · by_cases h2 : opt.num_upsampling_layers = "more"
      · have hn6 : n = 6 := by
          simp [num_up_layers, h1, h2] at hn
          omega
        subst hn6
        simp [SPADEGenerator.forward, SPADEGenerator.fwHead, SPADEGenerator.fwTrunk,
          SPADEGenerator.fwTail, SPADEGenerator.img_out, SPADEGenerator.buildG,
          Tensor4.shape, h2]
        omega
      · have h3 : opt.num_upsampling_layers = "most" := by
          by_contra h3
          simp [num_up_layers, h1, h2, h3] at hn
        have hn7 : n = 7 := by
          simp [num_up_layers, h1, h2, h3] at hn
          omega
        subst hn7
        simp [SPADEGenerator.forward, SPADEGenerator.fwHead, SPADEGenerator.fwTrunk,
          SPADEGenerator.fwTail, SPADEGenerator.img_out, SPADEGenerator.buildG,
          Tensor4.shape, h3]
        omega
  · obtain ⟨y, hy⟩ := hEq
    rw [hy]
    intro b c i j
    simp only [tensorMap_data]
    exact ⟨negOneLeTanh _, tanhLeOne _⟩

/-- All-zero parameter values for one convolution, used by the concrete
witnesses. -/
def exConvP : ConvParams α := { weight := fun _ _ _ _ => 0, biasv := fun _ => 0 }

/-- All-zero parameter values for one Conditional Normalizer. -/
def exSpadeP : SPADEParams α := { shared := exConvP, gammaP := exConvP, betaP := exConvP }

/-- All-zero parameter values for one residual block. -/
def exBlockP : BlockParams α :=
  { c0 := exConvP, c1 := exConvP, cs := exConvP, s0 := 0, s1 := 0, ss := 0
    n0 := exSpadeP, n1 := exSpadeP, ns := exSpadeP }

/-- All-zero parameter values for one generator. -/
def exGenP : GenParams α :=
  { fcP := exConvP, imgP := exConvP, head0 := exBlockP, gm0 := exBlockP, gm1 := exBlockP
    u0 := exBlockP, u1 := exBlockP, u2 := exBlockP, u3 := exBlockP, u4 := exBlockP }

/-- Concrete configuration used by the witnesses: normal mode without the
spectral marker. -/
def exCfg : Config :=
  { ngf := 1, norm_G := "spadeinstance3x3", semantic_nc := 1
    num_upsampling_layers := "normal", crop_size := 32, aspect_ratio := 1 }

/-- Concrete all-zero semantic map of shape [1, 1, 32, 32]. -/
def exInput : Tensor4 α := { b := 1, c := 1, h := 32, w := 32, data := fun _ _ _ _ => 0 }

/-- Witness for C1 at a concrete configuration, parameter set and input. -/
theorem c1_generator_forward_shape_and_range_witness :
    ∃ g : SPADEGenerator ℝ, SPADEGenerator.make exCfg exGenP = Except.ok g ∧
      ((g.forward Real.tanh exInput).shape =
          [(exInput (α := ℝ)).b, 3, g.sh.toNat * 2 ^ 5, g.sw * 2 ^ 5] ∧
        (∀ b c i j, -1 ≤ (g.forward Real.tanh exInput).data b c i j ∧
          (g.forward Real.tanh exInput).data b c i j ≤ 1) ∧
        (∃ y : Tensor4 ℝ, g.forward Real.tanh exInput =
          Tensor4.map Real.tanh (g.conv_img.apply (leaky_relu (2 / 10) y)))) := by
  obtain ⟨g, hg⟩ : ∃ g : SPADEGenerator ℝ, SPADEGenerator.make exCfg exGenP = Except.ok g :=
    ⟨_, rfl⟩
  exact ⟨g, hg, c1_generator_forward_shape_and_range exCfg exGenP g 5 rfl hg exInput⟩

/-- C2: the num_upsampling_layers mode maps to stages as normal to 5, more to
6, most to 7, and for any other value construction fails with the
InvalidConfiguration error regardless of the supplied parameter values, i.e.
before any layer parameters are created. -/
theorem c2_num_upsampling_mapping_and_invalid {α : Type} [LinearOrderedField α]
    (opt : Config) (ps : GenParams α)
    (h1 : opt.num_upsampling_layers ≠ "normal")
    (h2 : opt.num_upsampling_layers ≠ "more")
    (h3 : opt.num_upsampling_layers ≠ "most") :
    (num_up_layers "normal" = Except.ok 5 ∧ num_up_layers "more" = Except.ok 6 ∧
      num_up_layers "most" = Except.ok 7) ∧
    SPADEGenerator.make opt ps = Except.error (GaugError.invalidConfiguration
      ("opt.num_upsampling_layers [" ++ opt.num_upsampling_layers ++ "] not recognized")) := by
  refine ⟨⟨rfl, rfl, rfl⟩, ?_⟩
  unfold SPADEGenerator.make compute_latent_vector_size num_up_layers
  simp [h1, h2, h3]

/-- Concrete configuration with the unrecognized mode string huge. -/
def hugeCfg : Config :=
  { ngf := 1, norm_G := "spadeinstance3x3", semantic_nc := 1
    num_upsampling_layers := "huge", crop_size := 32, aspect_ratio := 1 }

/-- Witness for C2: the mode huge is rejected. -/
theorem c2_num_upsampling_mapping_and_invalid_witness :
    (num_up_layers "normal" = Except.ok 5 ∧ num_up_layers "more" = Except.ok 6 ∧
      num_up_layers "most" = Except.ok 7) ∧
    SPADEGenerator.make hugeCfg (exGenP (α := ℚ)) =
      Except.error (GaugError.invalidConfiguration
        ("opt.num_upsampling_layers [" ++ hugeCfg.num_upsampling_layers ++
          "] not recognized")) :=
  c2_num_upsampling_mapping_and_invalid hugeCfg exGenP
    (by decide) (by decide) (by decide)

/-- Value of the Python round at an integer rational. -/
theorem pyRound_intCast (z : ℤ) : pyRound (z : ℚ) = z := by
  unfold pyRound
  have hf : Rat.floor (z : ℚ) = z := by
    have hfl : Rat.floor (z : ℚ) = ⌊(z : ℚ)⌋ := rfl
    rw [hfl, Int.floor_intCast]
  rw [hf]
  norm_num

/-- C3: for every recognized mode the base size is computed with silent
floor truncation and no error: sw = crop_size / 2 ^ stages (integer floor
division, so sw * 2 ^ stages never exceeds crop_size and no remainder check
is performed) and sh = round(sw / aspect_ratio); in particular crop_size =
256, stages = 5, aspect_ratio = 1 gives (sw, sh) = (8, 8). -/
theorem c3_latent_vector_size (opt : Config) (n : ℕ)
    (hn : num_up_layers opt.num_upsampling_layers = Except.ok n) :
    compute_latent_vector_size opt =
      Except.ok (opt.crop_size / 2 ^ n,
        pyRound (((opt.crop_size / 2 ^ n : ℕ) : ℚ) / opt.aspect_ratio)) ∧
    (opt.crop_size / 2 ^ n) * 2 ^ n ≤ opt.crop_size ∧
    (opt.crop_size = 256 → n = 5 → opt.aspect_ratio = 1 →
      compute_latent_vector_size opt = Except.ok (8, 8)) := by
  have hmain : compute_latent_vector_size opt =
      Except.ok (opt.crop_size / 2 ^ n,
        pyRound (((opt.crop_size / 2 ^ n : ℕ) : ℚ) / opt.aspect_ratio)) := by
    unfold compute_latent_vector_size
    rw [hn]
    rfl
  refine ⟨hmain, Nat.div_mul_le_self _ _, fun hc hn5 ha => ?_⟩
  subst hn5
  rw [hmain, hc, ha]
  have h8 : (256 : ℕ) / 2 ^ 5 = 8 := by norm_num
  rw [h8]
  have : ((8 : ℕ) : ℚ) / 1 = ((8 : ℤ) : ℚ) := by norm_num
  rw [this, pyRound_intCast]

/-- Witness for C3 at the concrete configuration of spec property 5. -/
theorem c3_latent_vector_size_witness :
    compute_latent_vector_size
      { ngf := 64, norm_G := "spectralspadeinstance3x3", semantic_nc := 35
        num_upsampling_layers := "normal", crop_size := 256, aspect_ratio := 1 } =
      Except.ok (8, 8) :=
  (c3_latent_vector_size
    { ngf := 64, norm_G := "spectralspadeinstance3x3", semantic_nc := 35
      num_upsampling_layers := "normal", crop_size := 256, aspect_ratio := 1 }
    5 rfl).2.2 rfl rfl rfl

/-- C4: a constructed block has fmiddle = min fin fout (the outer channel
counts of conv_0 and conv_1), learned_shortcut = (fin != fout); with fin =
fout the shortcut is the identity and no shortcut convolution exists; with
fin != fout a bias-free kernel-1 shortcut convolution fin to fout exists and
the shortcut applies it after a conditioned normalization of the input. -/
theorem c4_block_shortcut_structure {α : Type} [LinearOrderedField α] (fin fout : ℕ)
    (opt : Config) (ps : BlockParams α) (blk : SPADEResnetBlock α)
    (hb : SPADEResnetBlock.make fin fout opt ps = Except.ok blk) :
    blk.conv_0.realized.outC = min fin fout ∧
    blk.conv_1.realized.inC = min fin fout ∧
    blk.learned_shortcut = (fin != fout) ∧
    (fin = fout → blk.conv_s = none ∧ ∀ x seg, blk.shortcut x seg = x) ∧
    (fin ≠ fout → ∃ cl ns, blk.conv_s = some cl ∧ blk.norm_s = some ns ∧
      cl.realized.inC = fin ∧ cl.realized.outC = fout ∧ cl.realized.kernel = 1 ∧
      cl.realized.hasBias = false ∧
      ∀ x seg, blk.shortcut x seg = cl.apply (ns.forward x seg)) := by
  obtain ⟨k, hp, rfl⟩ := blockMake_inv hb
  refine ⟨?_, ?_, rfl, ?_, ?_⟩
  · by_cases hs : strContains opt.norm_G "spectral" = true <;> simp [hs, realized_wrap]
  · by_cases hs : strContains opt.norm_G "spectral" = true <;> simp [hs, realized_wrap]
  · intro hEq
    have hb' : (fin != fout) = false := by simp [hEq]
    exact ⟨by simp [hb'], fun x seg => by simp [SPADEResnetBlock.shortcut, hb']⟩
  · intro hne
    have hb' : (fin != fout) = true := by simp [hne]
    refine ⟨(if strContains opt.norm_G "spectral" = true then
        ConvLayer.spectralNormalized (mkConv2d fin fout 1 0 false ps.cs) ps.ss
      else ConvLayer.plain (mkConv2d fin fout 1 0 false ps.cs)),
      SPADE.build (strReplace opt.norm_G "spectral" "") fin opt.semantic_nc
        (opt.ngf * 2) k ps.ns,
      by simp [hb'], by simp [hb'], ?_, ?_, ?_, ?_, ?_⟩
    · by_cases hs : strContains opt.norm_G "spectral" = true <;> simp [hs, realized_wrap]
    · by_cases hs : strContains opt.norm_G "spectral" = true <;> simp [hs, realized_wrap]
    · by_cases hs : strContains opt.norm_G "spectral" = true <;> simp [hs, realized_wrap]
    · by_cases hs : strContains opt.norm_G "spectral" = true <;> simp [hs, realized_wrap]
    · intro x seg
      simp [SPADEResnetBlock.shortcut, hb']

/-- Witness for C4 at a learned-shortcut block 2 to 3. -/
theorem c4_block_shortcut_structure_witness :
    ∃ blk : SPADEResnetBlock ℚ, SPADEResnetBlock.make 2 3 exCfg exBlockP = Except.ok blk ∧
      (blk.conv_0.realized.outC = min 2 3 ∧
      blk.conv_1.realized.inC = min 2 3 ∧
      blk.learned_shortcut = (2 != 3) ∧
      ((2 : ℕ) = 3 → blk.conv_s = none ∧ ∀ x seg, blk.shortcut x seg = x) ∧
      ((2 : ℕ) ≠ 3 → ∃ cl ns, blk.conv_s = some cl ∧ blk.norm_s = some ns ∧
        cl.realized.inC = 2 ∧ cl.realized.outC = 3 ∧ cl.realized.kernel = 1 ∧
        cl.realized.hasBias = false ∧
        ∀ x seg, blk.shortcut x seg = cl.apply (ns.forward x seg))) := by
  obtain ⟨blk, hb⟩ : ∃ blk : SPADEResnetBlock ℚ,
      SPADEResnetBlock.make 2 3 exCfg exBlockP = Except.ok blk := ⟨_, rfl⟩
  exact ⟨blk, hb, c4_block_shortcut_structure 2 3 exCfg exBlockP blk hb⟩

/-- C5: the forward pass of a Conditional Residual Block computes
shortcut(X, S) + conv_1(leaky_relu(norm_1(conv_0(leaky_relu(norm_0(X, S))),
S))), with both leaky_relu activations at fixed negative slope 0.2 and both
normalizations conditioned on the same semantic map S. -/
theorem c5_block_forward_formula {α : Type} [LinearOrderedField α]
    (blk : SPADEResnetBlock α) (x seg : Tensor4 α) :
    blk.forward x seg = Tensor4.add (blk.shortcut x seg)
      (blk.conv_1.apply (leaky_relu (2 / 10)
        (blk.norm_1.forward
          (blk.conv_0.apply (leaky_relu (2 / 10) (blk.norm_0.forward x seg))) seg))) := rfl

/-- Concrete configuration with the spectral marker in the mode string. -/
def exCfgSpec : Config :=
  { ngf := 1, norm_G := "spectralspadeinstance3x3", semantic_nc := 1
    num_upsampling_layers := "normal", crop_size := 32, aspect_ratio := 1 }

/-- C6: the owned convolutions of a constructed block carry the spectral
wrapper exactly when the mode string has the spectral substring, and every
owned Conditional Normalizer is constructed on the mode string with the
spectral substring removed. -/
theorem c6_spectral_wrapping_iff {α : Type} [LinearOrderedField α] (fin fout : ℕ)
    (opt : Config) (ps : BlockParams α) (blk : SPADEResnetBlock α)
    (hb : SPADEResnetBlock.make fin fout opt ps = Except.ok blk) :
    (blk.conv_0.isSpectral = true ↔ strContains opt.norm_G "spectral" = true) ∧
    (blk.conv_1.isSpectral = true ↔ strContains opt.norm_G "spectral" = true) ∧
    (∀ cl, blk.conv_s = some cl →
      (cl.isSpectral = true ↔ strContains opt.norm_G "spectral" = true)) ∧
    blk.norm_0.configStr = strReplace opt.norm_G "spectral" "" ∧
    blk.norm_1.configStr = strReplace opt.norm_G "spectral" "" ∧
    (∀ ns, blk.norm_s = some ns →
      ns.configStr = strReplace opt.norm_G "spectral" "") := by
  obtain ⟨k, hp, rfl⟩ := blockMake_inv hb
  by_cases hs : strContains opt.norm_G "spectral" = true
  · refine ⟨by simp [hs, ConvLayer.isSpectral], by simp [hs, ConvLayer.isSpectral],
      ?_, rfl, rfl, ?_⟩
    · intro cl hcl
      by_cases hne : (fin != fout) = true
      · simp [hne, hs] at hcl
        simp [← hcl, ConvLayer.isSpectral, hs]
      · simp [hne] at hcl
    · intro ns hns
      by_cases hne : (fin != fout) = true
      · simp [hne] at hns
        simp [← hns]
      · simp [hne] at hns
  · refine ⟨by simp [hs, ConvLayer.isSpectral], by simp [hs, ConvLayer.isSpectral],
      ?_, rfl, rfl, ?_⟩
    · intro cl hcl
      by_cases hne : (fin != fout) = true
      · simp [hne, hs] at hcl
        simp [← hcl, ConvLayer.isSpectral, hs]
      · simp [hne] at hcl
    · intro ns hns
      by_cases hne : (fin != fout) = true
      · simp [hne] at hns
        simp [← hns]
      · simp [hne] at hns

/-- Witness for C6 at a learned-shortcut block of a spectral-mode
configuration. -/
theorem c6_spectral_wrapping_iff_witness :
    ∃ blk : SPADEResnetBlock ℚ,
      SPADEResnetBlock.make 2 3 exCfgSpec exBlockP = Except.ok blk ∧
      ((blk.conv_0.isSpectral = true ↔ strContains exCfgSpec.norm_G "spectral" = true) ∧
      (blk.conv_1.isSpectral = true ↔ strContains exCfgSpec.norm_G "spectral" = true) ∧
      (∀ cl, blk.conv_s = some cl →
        (cl.isSpectral = true ↔ strContains exCfgSpec.norm_G "spectral" = true)) ∧
      blk.norm_0.configStr = strReplace exCfgSpec.norm_G "spectral" "" ∧
      blk.norm_1.configStr = strReplace exCfgSpec.norm_G "spectral" "" ∧
      (∀ ns, blk.norm_s = some ns →
        ns.configStr = strReplace exCfgSpec.norm_G "spectral" "")) := by
  obtain ⟨blk, hb⟩ : ∃ blk : SPADEResnetBlock ℚ,
      SPADEResnetBlock.make 2 3 exCfgSpec exBlockP = Except.ok blk := ⟨_, rfl⟩
  exact ⟨blk, hb, c6_spectral_wrapping_iff 2 3 exCfgSpec exBlockP blk hb⟩

/-- Concrete configuration in the most mode. -/
def exCfgMost : Config :=
  { ngf := 1, norm_G := "spadeinstance3x3", semantic_nc := 1
    num_upsampling_layers := "most", crop_size := 128, aspect_ratio := 1 }

/-- C7: in the more and most modes forward performs an extra bare upsample
between middle block 0 and middle block 1, in the normal mode middle block 1
receives middle block 0 output unchanged; the fifth upsampling block (ngf to
ngf / 2 channels) exists exactly in the most mode and is applied after one
more upsample, while in the other modes the closing stage goes straight to
the final image stage. -/
theorem c7_extra_upsample_and_fifth_block {α : Type} [LinearOrderedField α] (opt : Config)
    (ps : GenParams α) (g : SPADEGenerator α) (f : α → α)
    (hg : SPADEGenerator.make opt ps = Except.ok g) :
    ((opt.num_upsampling_layers = "more" ∨ opt.num_upsampling_layers = "most") →
      ∀ x, g.forward f x = g.fwTrunk f (upsample2 (g.fwHead x)) x) ∧
    (opt.num_upsampling_layers = "normal" →
      ∀ x, g.forward f x = g.fwTrunk f (g.fwHead x) x) ∧
    (g.up_4.isSome = true ↔ opt.num_upsampling_layers = "most") ∧
    (opt.num_upsampling_layers = "most" →
      ∃ blk, g.up_4 = some blk ∧ blk.fin = 1 * opt.ngf ∧ blk.fout = opt.ngf / 2 ∧
        ∀ y seg, g.fwTail f y seg = g.img_out f (blk.forward (upsample2 y) seg)) ∧
    (opt.num_upsampling_layers ≠ "most" →
      g.up_4 = none ∧ ∀ y seg, g.fwTail f y seg = g.img_out f y) := by
  obtain ⟨swsh, k, hcl, hp, rfl⟩ := generatorMake_inv hg
  refine ⟨?_, ?_, ?_, ?_, ?_⟩
  · rintro (h | h) x <;> simp [SPADEGenerator.forward, SPADEGenerator.buildG, h]
  · intro h x
    simp [SPADEGenerator.forward, SPADEGenerator.buildG, h]
  · by_cases hm : opt.num_upsampling_layers = "most" <;>
      simp [SPADEGenerator.buildG, hm]
  · intro hm
    refine ⟨SPADEResnetBlock.build (1 * opt.ngf) (opt.ngf / 2) opt ps.u4 k,
      by simp [SPADEGenerator.buildG, hm], rfl, rfl, ?_⟩
    intro y seg
    simp [SPADEGenerator.fwTail, SPADEGenerator.buildG, hm]
  · intro hm
    exact ⟨by simp [SPADEGenerator.buildG, hm],
      fun y seg => by simp [SPADEGenerator.fwTail, SPADEGenerator.buildG, hm]⟩

/-- Witness for C7 at a concrete most-mode generator. -/
theorem c7_extra_upsample_and_fifth_block_witness :
    ∃ g : SPADEGenerator ℚ, SPADEGenerator.make exCfgMost exGenP = Except.ok g ∧
      (((exCfgMost.num_upsampling_layers = "more" ∨
          exCfgMost.num_upsampling_layers = "most") →
        ∀ x, g.forward id x = g.fwTrunk id (upsample2 (g.fwHead x)) x) ∧
      (exCfgMost.num_upsampling_layers = "normal" →
        ∀ x, g.forward id x = g.fwTrunk id (g.fwHead x) x) ∧
      (g.up_4.isSome = true ↔ exCfgMost.num_upsampling_layers = "most") ∧
      (exCfgMost.num_upsampling_layers = "most" →
        ∃ blk, g.up_4 = some blk ∧ blk.fin = 1 * exCfgMost.ngf ∧
          blk.fout = exCfgMost.ngf / 2 ∧
          ∀ y seg, g.fwTail id y seg = g.img_out id (blk.forward (upsample2 y) seg)) ∧
      (exCfgMost.num_upsampling_layers ≠ "most" →
        g.up_4 = none ∧ ∀ y seg, g.fwTail id y seg = g.img_out id y)) := by
  obtain ⟨g, hg⟩ : ∃ g : SPADEGenerator ℚ,
      SPADEGenerator.make exCfgMost exGenP = Except.ok g := ⟨_, rfl⟩
  exact ⟨g, hg, c7_extra_upsample_and_fifth_block exCfgMost exGenP g id hg⟩

/-- Removal of the spectral reparameterization fails with InvalidState as
soon as conv_0 is plain (the first unwrap the cascade attempts). -/
theorem blockRemove_error_of_plain (blk : SPADEResnetBlock α)
    (h : blk.conv_0.isSpectral = false) :
    blk.remove_spectral_norm =
      Except.error (GaugError.invalidState "spectral_norm not found") := by
  cases hc0 : blk.conv_0 with
  | plain c =>
    unfold SPADEResnetBlock.remove_spectral_norm
    rw [hc0]
    rfl
  | spectralNormalized c s =>
    rw [hc0] at h
    simp [ConvLayer.isSpectral] at h

/-- Removal of the spectral reparameterization succeeds on a block whose
owned convolutions are all wrapped, produces a block whose forward pass is
pointwise unchanged (only the weight storage is folded), and leaves conv_0
plain. -/
theorem blockRemove_ok_of_spectral (blk : SPADEResnetBlock α)
    (h0 : blk.conv_0.isSpectral = true) (h1 : blk.conv_1.isSpectral = true)
    (hs : blk.learned_shortcut = true →
      ∃ cl, blk.conv_s = some cl ∧ cl.isSpectral = true) :
    ∃ blk', blk.remove_spectral_norm = Except.ok blk' ∧
      blk'.conv_0.isSpectral = false ∧
      ∀ x seg, blk'.forward x seg = blk.forward x seg := by
  cases hc0 : blk.conv_0 with
  | plain c => rw [hc0] at h0; simp [ConvLayer.isSpectral] at h0
  | spectralNormalized c0 s0 =>
  cases hc1 : blk.conv_1 with
  | plain c => rw [hc1] at h1; simp [ConvLayer.isSpectral] at h1
  | spectralNormalized c1 s1 =>
  by_cases hl : blk.learned_shortcut = true
  · obtain ⟨cl, hcl, hclS⟩ := hs hl
    cases hccl : cl with
    | plain c => rw [hccl] at hclS; simp [ConvLayer.isSpectral] at hclS
    | spectralNormalized cs ss =>
    subst hccl
    refine ⟨{ blk with
        conv_0 := ConvLayer.plain ((ConvLayer.spectralNormalized c0 s0).realized)
        conv_1 := ConvLayer.plain ((ConvLayer.spectralNormalized c1 s1).realized)
        conv_s := some (ConvLayer.plain ((ConvLayer.spectralNormalized cs ss).realized)) },
      ?_, rfl, ?_⟩
    · unfold SPADEResnetBlock.remove_spectral_norm
      rw [hc0, hc1]
      simp [ConvLayer.remove_spectral_norm, hl, hcl]
    · intro x seg
      cases hns : blk.norm_s <;>
        simp [SPADEResnetBlock.forward, SPADEResnetBlock.shortcut, hl, hcl, hns,
          hc0, hc1]
  · have hl' : blk.learned_shortcut = false := by
      cases hb : blk.learned_shortcut
      · rfl
      · exact absurd hb hl
    refine ⟨{ blk with
        conv_0 := ConvLayer.plain ((ConvLayer.spectralNormalized c0 s0).realized)
        conv_1 := ConvLayer.plain ((ConvLayer.spectralNormalized c1 s1).realized)
        conv_s := blk.conv_s },
      ?_, rfl, ?_⟩
    · unfold SPADEResnetBlock.remove_spectral_norm
      rw [hc0, hc1]
      simp [ConvLayer.remove_spectral_norm, hl']
    · intro x seg
      simp [SPADEResnetBlock.forward, SPADEResnetBlock.shortcut, hl', hc0, hc1]

/-- C8: calling remove_spectral_norm on a block whose convolutions are not
wrapped is an explicit InvalidState error (the behaviour the implementation
applies consistently): it errors whenever conv_0 is plain, in particular on
every block constructed without the spectral marker and on a second call
after a successful removal; it succeeds exactly on blocks constructed with
the spectral marker, where the reparameterization was actually applied. -/
theorem c8_remove_spectral_norm_guard {α : Type} [LinearOrderedField α] :
    (∀ blk : SPADEResnetBlock α, blk.conv_0.isSpectral = false →
      blk.remove_spectral_norm =
        Except.error (GaugError.invalidState "spectral_norm not found")) ∧
    (∀ (fin fout : ℕ) (opt : Config) (ps : BlockParams α) (blk : SPADEResnetBlock α),
      SPADEResnetBlock.make fin fout opt ps = Except.ok blk →
      (strContains opt.norm_G "spectral" = false →
        blk.remove_spectral_norm =
          Except.error (GaugError.invalidState "spectral_norm not found")) ∧
      (strContains opt.norm_G "spectral" = true →
        ∃ blk', blk.remove_spectral_norm = Except.ok blk' ∧
          blk'.remove_spectral_norm =
            Except.error (GaugError.invalidState "spectral_norm not found"))) := by
  refine ⟨fun blk h => blockRemove_error_of_plain blk h, ?_⟩
  intro fin fout opt ps blk hb
  obtain ⟨k, hp, rfl⟩ := blockMake_inv hb
  constructor
  · intro hsf
    refine blockRemove_error_of_plain _ ?_
    simp [hsf, ConvLayer.isSpectral]
  · intro hst
    obtain ⟨blk', hok, hplain, _⟩ :=
      blockRemove_ok_of_spectral (SPADEResnetBlock.build fin fout opt ps k)
        (by simp [hst, ConvLayer.isSpectral])
        (by simp [hst, ConvLayer.isSpectral])
        (by
          intro hl
          simp only [blockBuild_learned] at hl
          exact ⟨ConvLayer.spectralNormalized (mkConv2d fin fout 1 0 false ps.cs) ps.ss,
            by simp [hl, hst], by simp [ConvLayer.isSpectral]⟩)
    exact ⟨blk', hok, blockRemove_error_of_plain blk' hplain⟩

/-- Witness for C8 at a spectral-mode block: removal succeeds once and the
second call errors. -/
theorem c8_remove_spectral_norm_guard_witness :
    ∃ blk : SPADEResnetBlock ℚ,
      SPADEResnetBlock.make 2 3 exCfgSpec exBlockP = Except.ok blk ∧
      ∃ blk', blk.remove_spectral_norm = Except.ok blk' ∧
        blk'.remove_spectral_norm =
          Except.error (GaugError.invalidState "spectral_norm not found") := by
  obtain ⟨blk, hb⟩ : ∃ blk : SPADEResnetBlock ℚ,
      SPADEResnetBlock.make 2 3 exCfgSpec exBlockP = Except.ok blk := ⟨_, rfl⟩
  exact ⟨blk, hb,
    ((c8_remove_spectral_norm_guard.2 2 3 exCfgSpec exBlockP blk hb).2 (by decide))⟩

/-- Specialization of the successful-removal lemma to built blocks of a
spectral-mode configuration. -/
theorem builtBlockRemove (fin fout : ℕ) (opt : Config) (ps : BlockParams α)
    (k : BaseNormKind) (hst : strContains opt.norm_G "spectral" = true) :
    ∃ blk', (SPADEResnetBlock.build fin fout opt ps k).remove_spectral_norm =
        Except.ok blk' ∧
      blk'.conv_0.isSpectral = false ∧
      ∀ x seg, blk'.forward x seg =
        (SPADEResnetBlock.build fin fout opt ps k).forward x seg :=
  blockRemove_ok_of_spectral _
    (by simp [hst, ConvLayer.isSpectral])
    (by simp [hst, ConvLayer.isSpectral])
    (by
      intro hl
      simp only [blockBuild_learned] at hl
      exact ⟨ConvLayer.spectralNormalized (mkConv2d fin fout 1 0 false ps.cs) ps.ss,
        by simp [hl, hst], by simp [ConvLayer.isSpectral]⟩)

/-- C9: on a generator constructed with a spectral normalization mode,
remove_spectral_norm succeeds (cascading over every owned block, the fifth
block included in the most mode) and the forward pass afterwards returns
exactly the same output tensor on every input, because removal only folds
the reparameterization into plain weights without changing the realized
weight values. -/
theorem c9_remove_then_forward_unchanged {α : Type} [LinearOrderedField α] (opt : Config)
    (ps : GenParams α) (g : SPADEGenerator α)
    (hg : SPADEGenerator.make opt ps = Except.ok g)
    (hst : strContains opt.norm_G "spectral" = true) :
    ∃ g', g.remove_spectral_norm = Except.ok g' ∧
      ∀ (f : α → α) (x : Tensor4 α), g'.forward f x = g.forward f x := by
  obtain ⟨swsh, k, hcl, hp, rfl⟩ := generatorMake_inv hg
  obtain ⟨b0, hok0, _, hf0⟩ :=
    builtBlockRemove (16 * opt.ngf) (16 * opt.ngf) opt ps.head0 k hst
  obtain ⟨b1, hok1, _, hf1⟩ :=
    builtBlockRemove (16 * opt.ngf) (16 * opt.ngf) opt ps.gm0 k hst
  obtain ⟨b2, hok2, _, hf2⟩ :=
    builtBlockRemove (16 * opt.ngf) (16 * opt.ngf) opt ps.gm1 k hst
  obtain ⟨b3, hok3, _, hf3⟩ :=
    builtBlockRemove (16 * opt.ngf) (8 * opt.ngf) opt ps.u0 k hst
  obtain ⟨b4, hok4, _, hf4⟩ :=
    builtBlockRemove (8 * opt.ngf) (4 * opt.ngf) opt ps.u1 k hst
  obtain ⟨b5, hok5, _, hf5⟩ :=
    builtBlockRemove (4 * opt.ngf) (2 * opt.ngf) opt ps.u2 k hst
  obtain ⟨b6, hok6, _, hf6⟩ :=
    builtBlockRemove (2 * opt.ngf) (1 * opt.ngf) opt ps.u3 k hst
  by_cases hm : opt.num_upsampling_layers = "most"
  · obtain ⟨b7, hok7, _, hf7⟩ :=
      builtBlockRemove (1 * opt.ngf) (opt.ngf / 2) opt ps.u4 k hst
    refine ⟨{ SPADEGenerator.buildG opt ps swsh k with
        head_0 := b0, G_middle_0 := b1, G_middle_1 := b2
        up_0 := b3, up_1 := b4, up_2 := b5, up_3 := b6, up_4 := some b7 }, ?_, ?_⟩
    · unfold SPADEGenerator.remove_spectral_norm
      simp only [SPADEGenerator.buildG, hm, if_true, hok0, hok1, hok2, hok3, hok4,
        hok5, hok6, hok7, exOk_bind, exMap_ok]
    · intro f x
      simp [SPADEGenerator.forward, SPADEGenerator.fwHead, SPADEGenerator.fwTrunk,
        SPADEGenerator.fwTail, SPADEGenerator.img_out, SPADEGenerator.buildG, hm,
        hf0, hf1, hf2, hf3, hf4, hf5, hf6, hf7]
  · refine ⟨{ SPADEGenerator.buildG opt ps swsh k with
        head_0 := b0, G_middle_0 := b1, G_middle_1 := b2
        up_0 := b3, up_1 := b4, up_2 := b5, up_3 := b6, up_4 := none }, ?_, ?_⟩
    · unfold SPADEGenerator.remove_spectral_norm
      simp only [SPADEGenerator.buildG, hm, if_false, hok0, hok1, hok2, hok3, hok4,
        hok5, hok6, exOk_bind, exMap_ok, ite_false]
    · intro f x
      simp [SPADEGenerator.forward, SPADEGenerator.fwHead, SPADEGenerator.fwTrunk,
        SPADEGenerator.fwTail, SPADEGenerator.img_out, SPADEGenerator.buildG, hm,
        hf0, hf1, hf2, hf3, hf4, hf5, hf6]

/-- Witness for C9 at a concrete spectral-mode generator. -/
theorem c9_remove_then_forward_unchanged_witness :
    ∃ g : SPADEGenerator ℚ, SPADEGenerator.make exCfgSpec exGenP = Except.ok g ∧
      ∃ g', g.remove_spectral_norm = Except.ok g' ∧
        ∀ (f : ℚ → ℚ) (x : Tensor4 ℚ), g'.forward f x = g.forward f x := by
  obtain ⟨g, hg⟩ : ∃ g : SPADEGenerator ℚ,
      SPADEGenerator.make exCfgSpec exGenP = Except.ok g := ⟨_, rfl⟩
  exact ⟨g, hg, c9_remove_then_forward_unchanged exCfgSpec exGenP g hg (by decide)⟩

/-- C10: in the most mode construction succeeds for every base width
(including odd ones, with no error), the fifth block and the final image
convolution use the floor division ngf / 2, and for odd ngf this is
(ngf - 1) / 2, not exactly half of ngf. -/
theorem c10_most_mode_floor_halving {α : Type} [LinearOrderedField α] (opt : Config)
    (ps : GenParams α) (k : BaseNormKind)
    (hm : opt.num_upsampling_layers = "most")
    (hp : parseBaseNorm (strReplace opt.norm_G "spectral" "") = Except.ok k) :
    ∃ g blk, SPADEGenerator.make opt ps = Except.ok g ∧ g.up_4 = some blk ∧
      blk.fout = opt.ngf / 2 ∧ g.conv_img.inC = opt.ngf / 2 ∧
      (opt.ngf % 2 = 1 →
        blk.fout = (opt.ngf - 1) / 2 ∧ 2 * blk.fout = opt.ngf - 1 ∧
        2 * blk.fout ≠ opt.ngf) := by
  refine ⟨SPADEGenerator.buildG opt ps
      (opt.crop_size / 2 ^ 7,
        pyRound (((opt.crop_size / 2 ^ 7 : ℕ) : ℚ) / opt.aspect_ratio)) k,
    SPADEResnetBlock.build (1 * opt.ngf) (opt.ngf / 2) opt ps.u4 k,
    ?_, ?_, rfl, ?_, ?_⟩
  · unfold SPADEGenerator.make compute_latent_vector_size num_up_layers
      SPADEResnetBlock.make
    simp [hm, hp, SPADEGenerator.buildG]
  · simp [SPADEGenerator.buildG, hm]
  · simp [SPADEGenerator.buildG, hm]
  · intro hodd
    simp only [blockBuild_fout]
    refine ⟨by omega, by omega, by omega⟩

/-- Concrete most-mode configuration with an odd base width. -/
def exCfgMostOdd : Config :=
  { ngf := 3, norm_G := "spadeinstance3x3", semantic_nc := 1
    num_upsampling_layers := "most", crop_size := 128, aspect_ratio := 1 }

/-- Witness for C10 at an odd base width in the most mode. -/
theorem c10_most_mode_floor_halving_witness :
    ∃ (g : SPADEGenerator ℚ) (blk : SPADEResnetBlock ℚ),
      SPADEGenerator.make exCfgMostOdd exGenP = Except.ok g ∧ g.up_4 = some blk ∧
      blk.fout = exCfgMostOdd.ngf / 2 ∧ g.conv_img.inC = exCfgMostOdd.ngf / 2 ∧
      (exCfgMostOdd.ngf % 2 = 1 →
        blk.fout = (exCfgMostOdd.ngf - 1) / 2 ∧ 2 * blk.fout = exCfgMostOdd.ngf - 1 ∧
        2 * blk.fout ≠ exCfgMostOdd.ngf) :=
  c10_most_mode_floor_halving exCfgMostOdd exGenP BaseNormKind.instanceNorm rfl rfl
